import Mathlib

/-!
# LightweightServo

A shallow embedding of `src/src/LightweightServo.cpp` (ATmega328P, timer 1, pins 9 and 10).

* The timer and port registers the code touches, together with the two calibration globals,
  form the record `State`; every C function becomes a function on `State`.
* The AVR `int` is 16 bit and `long` is 32 bit.  Values are carried as `Int`; every place
  where the C code narrows or may overflow is written out with `toInt16`, `toInt32`,
  `toUInt16` or an explicit `% 256`.
* Integer division in C truncates toward zero (`Int.tdiv`); a zero divisor has no result,
  so `map` and its callers return an `Option`.
-/

namespace LightweightServo

/-! ## Machine integers -/

/-- Wrap an integer to the signed 16-bit range of the AVR `int`. -/
def toInt16 (x : Int) : Int := (x + 32768) % 65536 - 32768

/-- Wrap an integer to the signed 32-bit range of the AVR `long`. -/
def toInt32 (x : Int) : Int := (x + 2147483648) % 4294967296 - 2147483648

/-- Store an `int` into an unsigned 16-bit register: reduction modulo `2^16`. -/
def toUInt16 (x : Int) : Nat := (x % 65536).toNat

/-- The value is representable as an AVR `int`. -/
def IsInt16 (x : Int) : Prop := -32768 ≤ x ∧ x ≤ 32767

instance (x : Int) : Decidable (IsInt16 x) := by
  unfold IsInt16
  infer_instance

/-- Bitwise complement of a bit pattern inside the 16-bit `int` in which the C expression
`~_BV(bit)` is evaluated. -/
def not16 (x : Nat) : Nat := 65535 ^^^ x

/-! ## Device constants -/

/-- Modelled from the spec: the macro `_BV(bit)` of the AVR headers, `1 << bit`. -/
def _BV (bit : Nat) : Nat := 1 <<< bit

/-- Modelled from the spec: bit number of COM1A1 in TCCR1A, declared in the ATmega328P
device header (channel A enable, non-inverting compare output). -/
def COM1A1 : Nat := 7

/-- Modelled from the spec: bit number of COM1A0 in TCCR1A, declared in the device header. -/
def COM1A0 : Nat := 6

/-- Modelled from the spec: bit number of COM1B1 in TCCR1A, declared in the ATmega328P
device header (channel B enable, non-inverting compare output). -/
def COM1B1 : Nat := 5

/-- Modelled from the spec: bit number of COM1B0 in TCCR1A, declared in the device header. -/
def COM1B0 : Nat := 4

/-- Modelled from the spec: bit number of WGM11 in TCCR1A, declared in the device header. -/
def WGM11 : Nat := 1

/-- Modelled from the spec: bit number of WGM10 in TCCR1A, declared in the device header. -/
def WGM10 : Nat := 0

/-- Modelled from the spec: bit number of WGM13 in TCCR1B, declared in the device header. -/
def WGM13 : Nat := 4

/-- Modelled from the spec: bit number of WGM12 in TCCR1B, declared in the device header. -/
def WGM12 : Nat := 3

/-- Modelled from the spec: bit number of CS11 in TCCR1B (prescaler 8), declared in the
device header. -/
def CS11 : Nat := 1

/-- Modelled from the spec: bit number of DDB1 in DDRB (pin 9), declared in the device
header. -/
def DDB1 : Nat := 1

/-- Modelled from the spec: bit number of DDB2 in DDRB (pin 10), declared in the device
header. -/
def DDB2 : Nat := 2

/-- The timer period: `#define COUNT_FOR_20_MILLIS 40000`. -/
def COUNT_FOR_20_MILLIS : Nat := 40000

/-! ## State -/

/-- The registers read or written by the module and its two calibration globals.
`DDRB`, `TCCR1A`, `TCCR1B` are 8-bit registers; `ICR1`, `TCNT1`, `OCR1A`, `OCR1B` are
16-bit registers; the calibration values are `int`. -/
structure State where
  DDRB : Nat
  TCCR1A : Nat
  TCCR1B : Nat
  ICR1 : Nat
  TCNT1 : Nat
  OCR1A : Nat
  OCR1B : Nat
  sMicrosecondsForServo0Degree : Int
  sMicrosecondsForServo180Degree : Int
deriving DecidableEq

/-- Every field lies within the width of the register or variable it stands for. -/
def State.WF (s : State) : Prop :=
  s.DDRB < 256 ∧ s.TCCR1A < 256 ∧ s.TCCR1B < 256 ∧
  s.ICR1 < 65536 ∧ s.TCNT1 < 65536 ∧ s.OCR1A < 65536 ∧ s.OCR1B < 65536 ∧
  IsInt16 s.sMicrosecondsForServo0Degree ∧ IsInt16 s.sMicrosecondsForServo180Degree

instance (s : State) : Decidable s.WF := by
  unfold State.WF
  infer_instance

/-- The state after reset and static initialisation: all registers zero,
`sMicrosecondsForServo0Degree = 544`, `sMicrosecondsForServo180Degree = 2400`. -/
def resetState : State :=
  { DDRB := 0, TCCR1A := 0, TCCR1B := 0, ICR1 := 0, TCNT1 := 0, OCR1A := 0, OCR1B := 0,
    sMicrosecondsForServo0Degree := 544, sMicrosecondsForServo180Degree := 2400 }

/-! ## Operations -/

/-- Embedding of `initLightweightServoPin9And10()`. -/
def initLightweightServoPin9And10 (s : State) : State :=
  let s := { s with DDRB := (s.DDRB ||| (_BV DDB1 ||| _BV DDB2)) % 256 }
  let s := { s with TCCR1A := _BV COM1A1 ||| _BV COM1B1 ||| _BV WGM11 }
  let s := { s with TCCR1B := _BV WGM13 ||| _BV WGM12 ||| _BV CS11 }
  { s with ICR1 := COUNT_FOR_20_MILLIS }

/-- Embedding of `initLightweightServoPin9_10(aUsePin9, aUsePin10)`. -/
def initLightweightServoPin9_10 (aUsePin9 aUsePin10 : Bool) (s : State) : State :=
  let tNewTCCR1A := (s.TCCR1A &&& (_BV COM1A1 ||| _BV COM1B1)) % 256
  let tNewTCCR1A := (tNewTCCR1A ||| _BV WGM11) % 256
  let (s, tNewTCCR1A) :=
    if aUsePin9 then
      ({ s with DDRB := (s.DDRB ||| _BV DDB1) % 256 }, (tNewTCCR1A ||| _BV COM1A1) % 256)
    else (s, tNewTCCR1A)
  let (s, tNewTCCR1A) :=
    if aUsePin10 then
      ({ s with DDRB := (s.DDRB ||| _BV DDB2) % 256 }, (tNewTCCR1A ||| _BV COM1B1) % 256)
    else (s, tNewTCCR1A)
  let s := { s with TCCR1A := tNewTCCR1A }
  let s := { s with TCCR1B := _BV WGM13 ||| _BV WGM12 ||| _BV CS11 }
  { s with ICR1 := COUNT_FOR_20_MILLIS }

/-- Modelled from the spec: the Arduino core function
`long map(long x, long in_min, long in_max, long out_min, long out_max)`, which is
`(x - in_min) * (out_max - out_min) / (in_max - in_min) + out_min` in 32-bit `long`
arithmetic with truncating division.  No result when the divisor is zero. -/
def map (x in_min in_max out_min out_max : Int) : Option Int :=
  let num := toInt32 (toInt32 (x - in_min) * toInt32 (out_max - out_min))
  let den := toInt32 (in_max - in_min)
  if den = 0 then none
  else some (toInt32 (toInt32 (num.tdiv den) + out_min))

/-- Embedding of `DegreeToMicrosecondsLightweightServo(aValueDegree)`; the `long` result
of `map` is narrowed to the `int` return type. -/
def DegreeToMicrosecondsLightweightServo (s : State) (aValueDegree : Int) : Option Int :=
  (map aValueDegree 0 180 s.sMicrosecondsForServo0Degree
    s.sMicrosecondsForServo180Degree).map toInt16

/-- Embedding of `MicrosecondsToDegreeLightweightServo(aValueMicros)`. -/
def MicrosecondsToDegreeLightweightServo (s : State) (aValueMicros : Int) : Option Int :=
  (map aValueMicros s.sMicrosecondsForServo0Degree
    s.sMicrosecondsForServo180Degree 0 180).map toInt16

/-- The auto-initialisation test at the head of `writeMicrosecondsLightweightServo`. -/
def needsInit (aUsePin9 : Bool) (s : State) : Bool :=
  (s.TCCR1B != (_BV WGM13 ||| _BV WGM12 ||| _BV CS11))
    || (aUsePin9 && ((s.TCCR1A &&& not16 (_BV COM1B1)) != (_BV COM1A1 ||| _BV WGM11)))
    || (!aUsePin9 && ((s.TCCR1A &&& not16 (_BV COM1A1)) != (_BV COM1B1 ||| _BV WGM11)))

/-- Embedding of `writeMicrosecondsLightweightServo(aMicroseconds, aUsePin9, aUpdateFast)`
(auto initialisation compiled in: `DISABLE_SERVO_TIMER_AUTO_INITIALIZE` is not defined). -/
def writeMicrosecondsLightweightServo (aMicroseconds : Int) (aUsePin9 aUpdateFast : Bool)
    (s : State) : State :=
  let s := if needsInit aUsePin9 s then initLightweightServoPin9_10 aUsePin9 (!aUsePin9) s else s
  let aMicroseconds := toInt16 (aMicroseconds * 2)
  let s :=
    if aUpdateFast then
      let tTimerCount := s.TCNT1
      if tTimerCount > 10000 then { s with TCNT1 := COUNT_FOR_20_MILLIS - 1 } else s
    else s
  if aUsePin9 then { s with OCR1A := toUInt16 aMicroseconds }
  else { s with OCR1B := toUInt16 aMicroseconds }

/-- Embedding of `writeLightweightServo(aValue, aUsePin9, aUpdateFast)`: the returned
`int` paired with the state after the call. -/
def writeLightweightServo (aValue : Int) (aUsePin9 aUpdateFast : Bool) (s : State) :
    Option (Int × State) :=
  (if aValue ≤ 180 then DegreeToMicrosecondsLightweightServo s aValue else some aValue).map
    fun aValue => (aValue, writeMicrosecondsLightweightServo aValue aUsePin9 aUpdateFast s)

/-- Embedding of `setLightweightServoPulseMicrosFor0And180Degree`. -/
def setLightweightServoPulseMicrosFor0And180Degree
    (aMicrosecondsForServo0Degree aMicrosecondsForServo180Degree : Int) (s : State) : State :=
  let s := { s with sMicrosecondsForServo0Degree := aMicrosecondsForServo0Degree }
  { s with sMicrosecondsForServo180Degree := aMicrosecondsForServo180Degree }

/-- Embedding of `write9(aValue, aUpdateFast)`. -/
def write9 (aValue : Int) (aUpdateFast : Bool) (s : State) : Option State :=
  (writeLightweightServo aValue true aUpdateFast s).map Prod.snd

/-- Embedding of `writeMicroseconds9(aMicroseconds, aUpdateFast)`. -/
def writeMicroseconds9 (aMicroseconds : Int) (aUpdateFast : Bool) (s : State) : State :=
  writeMicrosecondsLightweightServo aMicroseconds true aUpdateFast s

/-- Embedding of `write10(aValue, aUpdateFast)`. -/
def write10 (aValue : Int) (aUpdateFast : Bool) (s : State) : Option State :=
  (writeLightweightServo aValue false aUpdateFast s).map Prod.snd

/-- Embedding of `writeMicroseconds10(aMicroseconds, aUpdateFast)`. -/
def writeMicroseconds10 (aMicroseconds : Int) (aUpdateFast : Bool) (s : State) : State :=
  writeMicrosecondsLightweightServo aMicroseconds false aUpdateFast s

/-- The compare register of the selected channel: OCR1A for pin 9, OCR1B for pin 10. -/
def compareRegister (aUsePin9 : Bool) (s : State) : Nat :=
  if aUsePin9 then s.OCR1A else s.OCR1B

/-- The TCCR1A enable bit of the selected channel, as a mask. -/
def enableBit (aUsePin9 : Bool) : Nat :=
  if aUsePin9 then _BV COM1A1 else _BV COM1B1

/-- A sequence of calls of `writeMicrosecondsLightweightServo`, each given by its
arguments `(aMicroseconds, aUsePin9, aUpdateFast)`, executed in order. -/
def writeSequence (ws : List (Int × Bool × Bool)) (s : State) : State :=
  ws.foldl (fun s w => writeMicrosecondsLightweightServo w.1 w.2.1 w.2.2 s) s

/-- The configured condition of the timer: TCCR1B holds WGM13|WGM12|CS11, the period
register holds 40000, and TCCR1A apart from the two enable bits is WGM11. -/
def Configured (s : State) : Prop :=
  s.TCCR1B = (_BV WGM13 ||| _BV WGM12 ||| _BV CS11) ∧ s.ICR1 = 40000 ∧
  s.TCCR1A &&& not16 (_BV COM1A1 ||| _BV COM1B1) = _BV WGM11

instance (s : State) : Decidable (Configured s) := by
  unfold Configured
  infer_instance

/-! ## Machine-integer lemmas -/

theorem toInt16_of_IsInt16 {x : Int} (h : IsInt16 x) : toInt16 x = x := by
  unfold IsInt16 at h
  unfold toInt16
  omega

theorem toInt32_of_bounds {x : Int} (h1 : -2147483648 ≤ x) (h2 : x ≤ 2147483647) :
    toInt32 x = x := by
  unfold toInt32
  omega

theorem toUInt16_toInt16 (x : Int) : toUInt16 (toInt16 x) = (x % 65536).toNat := by
  unfold toUInt16 toInt16
  congr 1
  omega

theorem toInt32_toInt32 (x : Int) : toInt32 (toInt32 x) = toInt32 x := by
  unfold toInt32
  omega

/-- Truncating division by a positive divisor, expressed with flooring division. -/
theorem tdiv_pos_eq (a b : Int) (hb : 0 < b) :
    a.tdiv b = if 0 ≤ a then a / b else -((-a) / b) := by
  split
  · next h => exact Int.tdiv_eq_ediv h (le_of_lt hb)
  · next h =>
    have h2 : 0 ≤ -a := by omega
    have h3 : a = -(-a) := by omega
    rw [h3, Int.neg_tdiv, Int.tdiv_eq_ediv h2 (le_of_lt hb)]
    simp

/-- The degree-to-microsecond conversion always has a result: its divisor is the
constant 180. -/
theorem DegreeToMicroseconds_eq (s : State) (d : Int) :
    DegreeToMicrosecondsLightweightServo s d =
      some (toInt16 (toInt32 (toInt32 ((toInt32 (toInt32 d *
        toInt32 (s.sMicrosecondsForServo180Degree - s.sMicrosecondsForServo0Degree))).tdiv 180)
          + s.sMicrosecondsForServo0Degree))) := by
  have h180 : toInt32 180 = 180 := by decide
  simp [DegreeToMicrosecondsLightweightServo, map, h180]

/-! ## Frame lemmas for the configuration routine -/

theorem init_TCNT1 (a b : Bool) (s : State) :
    (initLightweightServoPin9_10 a b s).TCNT1 = s.TCNT1 := by
  cases a <;> cases b <;> rfl

theorem init_OCR1A (a b : Bool) (s : State) :
    (initLightweightServoPin9_10 a b s).OCR1A = s.OCR1A := by
  cases a <;> cases b <;> rfl

theorem init_OCR1B (a b : Bool) (s : State) :
    (initLightweightServoPin9_10 a b s).OCR1B = s.OCR1B := by
  cases a <;> cases b <;> rfl

theorem init_cal0 (a b : Bool) (s : State) :
    (initLightweightServoPin9_10 a b s).sMicrosecondsForServo0Degree =
      s.sMicrosecondsForServo0Degree := by
  cases a <;> cases b <;> rfl

theorem init_cal180 (a b : Bool) (s : State) :
    (initLightweightServoPin9_10 a b s).sMicrosecondsForServo180Degree =
      s.sMicrosecondsForServo180Degree := by
  cases a <;> cases b <;> rfl

theorem init_TCCR1B (a b : Bool) (s : State) :
    (initLightweightServoPin9_10 a b s).TCCR1B = _BV WGM13 ||| _BV WGM12 ||| _BV CS11 := by
  cases a <;> cases b <;> rfl

theorem init_ICR1 (a b : Bool) (s : State) :
    (initLightweightServoPin9_10 a b s).ICR1 = COUNT_FOR_20_MILLIS := by
  cases a <;> cases b <;> rfl

/-- The counter after a write, in terms of the counter before it. -/
theorem write_TCNT1 (m : Int) (a f : Bool) (s : State) :
    (writeMicrosecondsLightweightServo m a f s).TCNT1 =
      if f = true ∧ 10000 < s.TCNT1 then COUNT_FOR_20_MILLIS - 1 else s.TCNT1 := by
  unfold writeMicrosecondsLightweightServo
  cases a <;> cases f <;> cases hn : needsInit _ s <;>
    by_cases hc : 10000 < s.TCNT1 <;> simp [hc, init_TCNT1]

/-- The compare register of the written channel after a write. -/
theorem write_compareRegister (m : Int) (a f : Bool) (s : State) :
    compareRegister a (writeMicrosecondsLightweightServo m a f s) =
      toUInt16 (toInt16 (m * 2)) := by
  unfold writeMicrosecondsLightweightServo compareRegister
  cases a <;> simp

/-! ## Bit-level lemmas for TCCR1A -/

set_option maxRecDepth 100000 in
theorem land_160_fin : ∀ y : Fin 256,
    y.val &&& 160 = 0 ∨ y.val &&& 160 = 32 ∨ y.val &&& 160 = 128 ∨ y.val &&& 160 = 160 := by
  decide

theorem land_160_eq_mod (x : Nat) : x &&& 160 = (x % 256) &&& 160 := by
  have h := Nat.and_pow_two_sub_one_eq_mod x 8
  have h2 : (255 : Nat) &&& 160 = 160 := by decide
  calc x &&& 160 = x &&& (255 &&& 160) := by rw [h2]
    _ = (x &&& 255) &&& 160 := by rw [Nat.and_assoc]
    _ = (x % 256) &&& 160 := by rw [show (255 : Nat) = 2 ^ 8 - 1 by norm_num, h]

/-- Masking a register value with both enable bits leaves one of four values. -/
theorem land_160_cases (x : Nat) :
    x &&& 160 = 0 ∨ x &&& 160 = 32 ∨ x &&& 160 = 128 ∨ x &&& 160 = 160 := by
  rw [land_160_eq_mod]
  exact land_160_fin ⟨x % 256, Nat.mod_lt _ (by decide)⟩

theorem land_128_eq (x : Nat) : x &&& 128 = (x &&& 160) &&& 128 := by
  rw [Nat.and_assoc]
  rfl

theorem land_32_eq (x : Nat) : x &&& 32 = (x &&& 160) &&& 32 := by
  rw [Nat.and_assoc]
  rfl

/-- TCCR1A after the selective configuration: the two enable bits are kept, WGM11 and the
requested enable bits are set, every other bit is cleared. -/
theorem init_TCCR1A (a b : Bool) (s : State) :
    (initLightweightServoPin9_10 a b s).TCCR1A =
      (s.TCCR1A &&& (_BV COM1A1 ||| _BV COM1B1)) ||| _BV WGM11 |||
        (if a then _BV COM1A1 else 0) ||| (if b then _BV COM1B1 else 0) := by
  have hm : _BV COM1A1 ||| _BV COM1B1 = 160 := by decide
  cases a <;> cases b <;>
    simp only [initLightweightServoPin9_10, hm, if_true, if_false, Bool.false_eq_true] <;>
    rcases land_160_cases s.TCCR1A with h | h | h | h <;> rw [h] <;> decide

/-- A channel whose enable bit is clear always triggers the configuration. -/
theorem needsInit_of_enable_clear (a : Bool) (s : State)
    (h : s.TCCR1A &&& enableBit a = 0) : needsInit a s = true := by
  cases a
  · have h1 : s.TCCR1A &&& 32 = 0 := h
    have h2 : s.TCCR1A &&& not16 (_BV COM1A1) ≠ _BV COM1B1 ||| _BV WGM11 := by
      intro e
      have e2 : (s.TCCR1A &&& not16 (_BV COM1A1)) &&& 32 = 32 := by rw [e]; decide
      rw [Nat.and_assoc] at e2
      have e3 : not16 (_BV COM1A1) &&& 32 = 32 := by decide
      rw [e3, h1] at e2
      exact absurd e2 (by decide)
    simp [needsInit, h2]
  · have h1 : s.TCCR1A &&& 128 = 0 := h
    have h2 : s.TCCR1A &&& not16 (_BV COM1B1) ≠ _BV COM1A1 ||| _BV WGM11 := by
      intro e
      have e2 : (s.TCCR1A &&& not16 (_BV COM1B1)) &&& 128 = 128 := by rw [e]; decide
      rw [Nat.and_assoc] at e2
      have e3 : not16 (_BV COM1B1) &&& 128 = 128 := by decide
      rw [e3, h1] at e2
      exact absurd e2 (by decide)
    simp [needsInit, h2]

/-! ## Frame lemmas for the write routine -/

/-- The configuration registers after a write are those after the optional
auto-initialisation: the rest of the write touches only TCNT1 and a compare register. -/
theorem write_TCCR1A (m : Int) (a f : Bool) (s : State) :
    (writeMicrosecondsLightweightServo m a f s).TCCR1A =
      (if needsInit a s then initLightweightServoPin9_10 a (!a) s else s).TCCR1A := by
  unfold writeMicrosecondsLightweightServo
  simp only []
  generalize (if needsInit a s = true then initLightweightServoPin9_10 a (!a) s else s) = s1
  cases a <;> cases f <;> by_cases hc : s1.TCNT1 > 10000 <;> simp [hc]

theorem write_TCCR1B (m : Int) (a f : Bool) (s : State) :
    (writeMicrosecondsLightweightServo m a f s).TCCR1B =
      (if needsInit a s then initLightweightServoPin9_10 a (!a) s else s).TCCR1B := by
  unfold writeMicrosecondsLightweightServo
  simp only []
  generalize (if needsInit a s = true then initLightweightServoPin9_10 a (!a) s else s) = s1
  cases a <;> cases f <;> by_cases hc : s1.TCNT1 > 10000 <;> simp [hc]

theorem write_ICR1 (m : Int) (a f : Bool) (s : State) :
    (writeMicrosecondsLightweightServo m a f s).ICR1 =
      (if needsInit a s then initLightweightServoPin9_10 a (!a) s else s).ICR1 := by
  unfold writeMicrosecondsLightweightServo
  simp only []
  generalize (if needsInit a s = true then initLightweightServoPin9_10 a (!a) s else s) = s1
  cases a <;> cases f <;> by_cases hc : s1.TCNT1 > 10000 <;> simp [hc]

theorem write_DDRB (m : Int) (a f : Bool) (s : State) :
    (writeMicrosecondsLightweightServo m a f s).DDRB =
      (if needsInit a s then initLightweightServoPin9_10 a (!a) s else s).DDRB := by
  unfold writeMicrosecondsLightweightServo
  simp only []
  generalize (if needsInit a s = true then initLightweightServoPin9_10 a (!a) s else s) = s1
  cases a <;> cases f <;> by_cases hc : s1.TCNT1 > 10000 <;> simp [hc]

theorem write_cal0 (m : Int) (a f : Bool) (s : State) :
    (writeMicrosecondsLightweightServo m a f s).sMicrosecondsForServo0Degree =
      s.sMicrosecondsForServo0Degree := by
  unfold writeMicrosecondsLightweightServo
  cases a <;> cases f <;> cases hn : needsInit _ s <;>
    by_cases hc : 10000 < s.TCNT1 <;> simp [hc, init_TCNT1, init_cal0]

theorem write_cal180 (m : Int) (a f : Bool) (s : State) :
    (writeMicrosecondsLightweightServo m a f s).sMicrosecondsForServo180Degree =
      s.sMicrosecondsForServo180Degree := by
  unfold writeMicrosecondsLightweightServo
  cases a <;> cases f <;> cases hn : needsInit _ s <;>
    by_cases hc : 10000 < s.TCNT1 <;> simp [hc, init_TCNT1, init_cal180]

/-- A write on pin 9 leaves OCR1B as it was. -/
theorem write9_OCR1B (m : Int) (f : Bool) (s : State) :
    (writeMicrosecondsLightweightServo m true f s).OCR1B = s.OCR1B := by
  unfold writeMicrosecondsLightweightServo
  cases f <;> cases hn : needsInit _ s <;>
    by_cases hc : 10000 < s.TCNT1 <;> simp [hc, init_TCNT1, init_OCR1B]

/-- A write on pin 10 leaves OCR1A as it was. -/
theorem write10_OCR1A (m : Int) (f : Bool) (s : State) :
    (writeMicrosecondsLightweightServo m false f s).OCR1A = s.OCR1A := by
  unfold writeMicrosecondsLightweightServo
  cases f <;> cases hn : needsInit _ s <;>
    by_cases hc : 10000 < s.TCNT1 <;> simp [hc, init_TCNT1, init_OCR1A]

/-- The auto-initialisation keeps the enable bit of the other channel. -/
theorem init_keeps_other_enable (a : Bool) (s : State) :
    (initLightweightServoPin9_10 a (!a) s).TCCR1A &&& enableBit (!a) =
      s.TCCR1A &&& enableBit (!a) := by
  rw [init_TCCR1A]
  have hm : _BV COM1A1 ||| _BV COM1B1 = 160 := by decide
  cases a
  · show _ = s.TCCR1A &&& 128
    rw [land_128_eq s.TCCR1A, hm]
    rcases land_160_cases s.TCCR1A with h | h | h | h <;> rw [h] <;> decide
  · show _ = s.TCCR1A &&& 32
    rw [land_32_eq s.TCCR1A, hm]
    rcases land_160_cases s.TCCR1A with h | h | h | h <;> rw [h] <;> decide

/-- DDRB after the selective configuration, for an 8-bit DDRB. -/
theorem init_DDRB (a b : Bool) (s : State) (h : s.DDRB < 256) :
    (initLightweightServoPin9_10 a b s).DDRB =
      s.DDRB ||| (if a then _BV DDB1 else 0) ||| (if b then _BV DDB2 else 0) := by
  have h1 : s.DDRB ||| _BV DDB1 < 256 := Nat.or_lt_two_pow (n := 8) h (by decide)
  have h2 : s.DDRB ||| _BV DDB2 < 256 := Nat.or_lt_two_pow (n := 8) h (by decide)
  have h3 : s.DDRB ||| _BV DDB1 ||| _BV DDB2 < 256 := Nat.or_lt_two_pow (n := 8) h1 (by decide)
  cases a <;> cases b <;>
    simp [initLightweightServoPin9_10, Nat.mod_eq_of_lt h1, Nat.mod_eq_of_lt h2,
      Nat.mod_eq_of_lt h3]

/-! ## Whole-state lemmas for the configuration routines -/

/-- Two states with equal fields are equal. -/
theorem State.eq_of_fields (s t : State) (h1 : s.DDRB = t.DDRB) (h2 : s.TCCR1A = t.TCCR1A)
    (h3 : s.TCCR1B = t.TCCR1B) (h4 : s.ICR1 = t.ICR1) (h5 : s.TCNT1 = t.TCNT1)
    (h6 : s.OCR1A = t.OCR1A) (h7 : s.OCR1B = t.OCR1B)
    (h8 : s.sMicrosecondsForServo0Degree = t.sMicrosecondsForServo0Degree)
    (h9 : s.sMicrosecondsForServo180Degree = t.sMicrosecondsForServo180Degree) : s = t := by
  cases s
  cases t
  simp_all

/-- Setting low bits commutes with truncation to 8 bits. -/
theorem or_mod_256 (x c : Nat) (hc : c < 256) : (x ||| c) % 256 = x % 256 ||| c := by
  apply Nat.eq_of_testBit_eq
  intro i
  have h := Nat.testBit_mod_two_pow (x ||| c) 8 i
  have h2 := Nat.testBit_mod_two_pow x 8 i
  have h3 : (2 : Nat) ^ 8 = 256 := by norm_num
  rw [h3] at h h2
  rw [h, Nat.testBit_or, Nat.testBit_or, h2]
  by_cases hi : i < 8
  · simp [hi]
  · have : c.testBit i = false := by
      apply Nat.testBit_lt_two_pow
      calc c < 256 := hc
        _ = 2 ^ 8 := by norm_num
        _ ≤ 2 ^ i := Nat.pow_le_pow_right (by decide) (by omega)
    simp [hi, this]

set_option maxRecDepth 100000 in
theorem or_pins_fin : ∀ y : Fin 256,
    (y.val ||| 2) ||| 2 = y.val ||| 2 ∧ (y.val ||| 4) ||| 4 = y.val ||| 4 ∧
    (y.val ||| 2 ||| 4) ||| 2 ||| 4 = y.val ||| 2 ||| 4 ∧ y.val ||| 2 ||| 4 = y.val ||| 6 ∧
    (y.val ||| 6) ||| 6 = y.val ||| 6 ∧
    y.val ||| 2 < 256 ∧ y.val ||| 4 < 256 ∧ y.val ||| 2 ||| 4 < 256 ∧ y.val ||| 6 < 256 := by
  decide

/-- DDRB after the selective configuration, for an arbitrary prior value. -/
theorem init_DDRB_gen (a b : Bool) (s : State) :
    (initLightweightServoPin9_10 a b s).DDRB =
      if a then (if b then s.DDRB % 256 ||| 2 ||| 4 else s.DDRB % 256 ||| 2)
      else (if b then s.DDRB % 256 ||| 4 else s.DDRB) := by
  have hy := or_pins_fin ⟨s.DDRB % 256, Nat.mod_lt _ (by decide)⟩
  simp only [] at hy
  have e2 : _BV DDB1 = 2 := by decide
  have e4 : _BV DDB2 = 4 := by decide
  cases a <;> cases b <;>
    simp only [initLightweightServoPin9_10, e2, e4, if_true, if_false, Bool.false_eq_true]
  · exact or_mod_256 _ 4 (by decide)
  · exact or_mod_256 _ 2 (by decide)
  · rw [or_mod_256 _ 4 (by decide), or_mod_256 _ 2 (by decide),
      Nat.mod_eq_of_lt hy.2.2.2.2.2.1]

/-- DDRB after the unconditional configuration, for an arbitrary prior value. -/
theorem initBoth_DDRB (s : State) :
    (initLightweightServoPin9And10 s).DDRB = s.DDRB % 256 ||| 6 :=
  or_mod_256 _ 6 (by decide)

/-! ## The auto-initialisation test -/

/-- The test reads only TCCR1A and TCCR1B. -/
theorem needsInit_congr (a : Bool) (s t : State) (h1 : s.TCCR1A = t.TCCR1A)
    (h2 : s.TCCR1B = t.TCCR1B) : needsInit a s = needsInit a t := by
  unfold needsInit
  rw [h1, h2]

/-- The test is negative exactly when TCCR1B holds the mode and prescaler bits and TCCR1A,
with the enable bit of the other channel masked out, is WGM11 with the enable bit of the
requested channel. -/
theorem needsInit_eq_false_iff (a : Bool) (s : State) :
    needsInit a s = false ↔
      s.TCCR1B = _BV WGM13 ||| _BV WGM12 ||| _BV CS11 ∧
      s.TCCR1A &&& not16 (enableBit (!a)) = _BV WGM11 ||| enableBit a := by
  have e1 : _BV WGM11 ||| enableBit true = _BV COM1A1 ||| _BV WGM11 := by decide
  have e2 : _BV WGM11 ||| enableBit false = _BV COM1B1 ||| _BV WGM11 := by decide
  cases a
  · rw [e2]
    simp [needsInit, enableBit]
  · rw [e1]
    simp [needsInit, enableBit]

set_option maxRecDepth 100000 in
theorem steady_value_fin : ∀ y : Fin 256,
    (y.val &&& 65503 = 130 → y.val = 2 ||| 128 ||| (y.val &&& 32)) ∧
    (y.val &&& 65407 = 34 → y.val = 2 ||| 32 ||| (y.val &&& 128)) := by
  decide

/-- After the auto-initialisation for a channel the test for that channel is negative. -/
theorem needsInit_init_self (a : Bool) (s : State) :
    needsInit a (initLightweightServoPin9_10 a (!a) s) = false := by
  rw [needsInit_eq_false_iff, init_TCCR1B, init_TCCR1A]
  refine ⟨rfl, ?_⟩
  have hm : _BV COM1A1 ||| _BV COM1B1 = 160 := by decide
  rw [hm]
  cases a <;> rcases land_160_cases s.TCCR1A with h | h | h | h <;> rw [h] <;> decide

/-- The auto-initialisation for one channel keeps a negative test of the other channel
negative. -/
theorem needsInit_init_other (a : Bool) (s : State) (h : needsInit (!a) s = false) :
    needsInit (!a) (initLightweightServoPin9_10 a (!a) s) = false := by
  rw [needsInit_eq_false_iff] at h ⊢
  rw [init_TCCR1B, init_TCCR1A]
  refine ⟨rfl, ?_⟩
  have hm : _BV COM1A1 ||| _BV COM1B1 = 160 := by decide
  rw [hm]
  obtain ⟨_, h2⟩ := h
  cases a
  · have h2a : s.TCCR1A &&& 65503 = 130 := h2
    have h3 : (s.TCCR1A &&& 65503) &&& 128 = 128 := by rw [h2a]; decide
    rw [Nat.and_assoc] at h3
    have h4 : (65503 : Nat) &&& 128 = 128 := by decide
    rw [h4, land_128_eq] at h3
    rcases land_160_cases s.TCCR1A with e | e | e | e <;> rw [e] at h3 ⊢ <;>
      first | exact absurd h3 (by decide) | decide
  · have h2a : s.TCCR1A &&& 65407 = 34 := h2
    have h3 : (s.TCCR1A &&& 65407) &&& 32 = 32 := by rw [h2a]; decide
    rw [Nat.and_assoc] at h3
    have h4 : (65407 : Nat) &&& 32 = 32 := by decide
    rw [h4, land_32_eq] at h3
    rcases land_160_cases s.TCCR1A with e | e | e | e <;> rw [e] at h3 ⊢ <;>
      first | exact absurd h3 (by decide) | decide

/-- After a write the test for the written channel is negative. -/
theorem needsInit_write_self (m : Int) (a f : Bool) (s : State) :
    needsInit a (writeMicrosecondsLightweightServo m a f s) = false := by
  rw [needsInit_congr a _ _ (write_TCCR1A m a f s) (write_TCCR1B m a f s)]
  cases hn : needsInit a s
  · simpa using hn
  · simpa using needsInit_init_self a s

/-- A write keeps a negative test negative, for either channel. -/
theorem needsInit_write_keeps (m : Int) (a f c : Bool) (s : State)
    (h : needsInit c s = false) :
    needsInit c (writeMicrosecondsLightweightServo m a f s) = false := by
  rw [needsInit_congr c _ _ (write_TCCR1A m a f s) (write_TCCR1B m a f s)]
  cases hn : needsInit a s
  · simpa using h
  · have hc : c = !a := by
      cases a <;> cases c <;> simp_all
    subst hc
    simpa using needsInit_init_other a s h

/-- With a negative test a write leaves the four configuration registers alone. -/
theorem write_config_unchanged (m : Int) (a f : Bool) (s : State)
    (h : needsInit a s = false) :
    (writeMicrosecondsLightweightServo m a f s).TCCR1A = s.TCCR1A ∧
    (writeMicrosecondsLightweightServo m a f s).TCCR1B = s.TCCR1B ∧
    (writeMicrosecondsLightweightServo m a f s).ICR1 = s.ICR1 ∧
    (writeMicrosecondsLightweightServo m a f s).DDRB = s.DDRB := by
  rw [write_TCCR1A, write_TCCR1B, write_ICR1, write_DDRB, h]
  simp

/-- Executing a sequence of writes: the first write, then the rest. -/
theorem writeSequence_cons (w : Int × Bool × Bool) (ws : List (Int × Bool × Bool))
    (s : State) :
    writeSequence (w :: ws) s
      = writeSequence ws (writeMicrosecondsLightweightServo w.1 w.2.1 w.2.2 s) := rfl

/-- After a sequence of writes the test is negative for a channel for which it was
negative before, and for every channel written in the sequence. -/
theorem needsInit_writeSequence (c : Bool) (ws : List (Int × Bool × Bool)) :
    ∀ s : State, (needsInit c s = false ∨ ∃ w ∈ ws, w.2.1 = c) →
      needsInit c (writeSequence ws s) = false := by
  induction ws with
  | nil =>
    intro s h
    rcases h with h | ⟨w, hw, _⟩
    · exact h
    · exact absurd hw (List.not_mem_nil w)
  | cons w ws ih =>
    intro s h
    rw [writeSequence_cons]
    apply ih
    rcases h with h | ⟨v, hv, hc⟩
    · exact Or.inl (needsInit_write_keeps _ _ _ _ _ h)
    · rcases List.mem_cons.1 hv with e | e
      · subst e
        subst hc
        exact Or.inl (needsInit_write_self _ _ _ _)
      · exact Or.inr ⟨v, e, hc⟩

/-- Both configuration routines establish the configured condition. -/
theorem Configured_initBoth (s : State) : Configured (initLightweightServoPin9And10 s) := by
  refine ⟨rfl, rfl, ?_⟩
  show (_BV COM1A1 ||| _BV COM1B1 ||| _BV WGM11) &&& _ = _
  decide

theorem Configured_init (a b : Bool) (s : State) :
    Configured (initLightweightServoPin9_10 a b s) := by
  refine ⟨init_TCCR1B a b s, init_ICR1 a b s, ?_⟩
  rw [init_TCCR1A]
  have hm : _BV COM1A1 ||| _BV COM1B1 = 160 := by decide
  rw [hm]
  cases a <;> cases b <;> rcases land_160_cases s.TCCR1A with h | h | h | h <;>
    rw [h] <;> decide

/-- A write keeps the configured condition. -/
theorem Configured_write (m : Int) (a f : Bool) (s : State) (h : Configured s) :
    Configured (writeMicrosecondsLightweightServo m a f s) := by
  unfold Configured
  rw [write_TCCR1A, write_TCCR1B, write_ICR1]
  cases hn : needsInit a s
  · exact h
  · exact Configured_init a (!a) s

/-! ## Arithmetic of the conversions for a general calibration pair -/

/-- The quotient `d * D / 180` for `0 ≤ d ≤ 180` lies between 0 and `D`. -/
theorem tdiv180_bounds (d D : Int) (hd0 : 0 ≤ d) (hd : d ≤ 180) :
    (0 ≤ D → 0 ≤ (d * D).tdiv 180 ∧ (d * D).tdiv 180 ≤ D) ∧
    (D ≤ 0 → D ≤ (d * D).tdiv 180 ∧ (d * D).tdiv 180 ≤ 0) := by
  have hq := tdiv_pos_eq (d * D) 180 (by decide)
  constructor
  · intro hD
    have h1 : 0 ≤ d * D := Int.mul_nonneg hd0 hD
    have h2 : d * D ≤ 180 * D := Int.mul_le_mul_of_nonneg_right hd hD
    rw [hq, if_pos h1]
    constructor <;> omega
  · intro hD
    have h1 : d * D ≤ 0 := Int.mul_nonpos_of_nonneg_of_nonpos hd0 hD
    have h2 : 180 * D ≤ d * D := Int.mul_le_mul_of_nonpos_right hd hD
    rw [hq]
    constructor <;> split <;> omega

/-- The degree conversion on the angular domain, for a 16-bit calibration pair: no
intermediate value overflows. -/
theorem DegreeToMicroseconds_of_range (s : State)
    (h0 : IsInt16 s.sMicrosecondsForServo0Degree)
    (h180 : IsInt16 s.sMicrosecondsForServo180Degree)
    (d : Int) (hd0 : 0 ≤ d) (hd : d ≤ 180) :
    DegreeToMicrosecondsLightweightServo s d =
      some (s.sMicrosecondsForServo0Degree +
        (d * (s.sMicrosecondsForServo180Degree - s.sMicrosecondsForServo0Degree)).tdiv 180) := by
  have b0 := h0
  have b180 := h180
  unfold IsInt16 at b0 b180
  obtain ⟨hpos, hneg⟩ := tdiv180_bounds d
    (s.sMicrosecondsForServo180Degree - s.sMicrosecondsForServo0Degree) hd0 hd
  have hP : -11796300 ≤ d * (s.sMicrosecondsForServo180Degree - s.sMicrosecondsForServo0Degree)
      ∧ d * (s.sMicrosecondsForServo180Degree - s.sMicrosecondsForServo0Degree) ≤ 11796300 := by
    rcases Int.le_total 0 (s.sMicrosecondsForServo180Degree - s.sMicrosecondsForServo0Degree)
      with hD | hD
    · have h1 := Int.mul_nonneg hd0 hD
      have h2 := Int.mul_le_mul_of_nonneg_right hd hD
      constructor <;> omega
    · have h1 := Int.mul_nonpos_of_nonneg_of_nonpos hd0 hD
      have h2 := Int.mul_le_mul_of_nonpos_right hd hD
      constructor <;> omega
  have hQ : (0 ≤ (d * (s.sMicrosecondsForServo180Degree
        - s.sMicrosecondsForServo0Degree)).tdiv 180 ∧
      (d * (s.sMicrosecondsForServo180Degree - s.sMicrosecondsForServo0Degree)).tdiv 180
        ≤ s.sMicrosecondsForServo180Degree - s.sMicrosecondsForServo0Degree) ∨
      (s.sMicrosecondsForServo180Degree - s.sMicrosecondsForServo0Degree
        ≤ (d * (s.sMicrosecondsForServo180Degree - s.sMicrosecondsForServo0Degree)).tdiv 180 ∧
      (d * (s.sMicrosecondsForServo180Degree - s.sMicrosecondsForServo0Degree)).tdiv 180
        ≤ 0) := by
    rcases Int.le_total 0 (s.sMicrosecondsForServo180Degree - s.sMicrosecondsForServo0Degree)
      with hD | hD
    · exact Or.inl (hpos hD)
    · exact Or.inr (hneg hD)
  rw [DegreeToMicroseconds_eq, toInt32_of_bounds (x := d) (by omega) (by omega),
    toInt32_of_bounds (x := s.sMicrosecondsForServo180Degree - s.sMicrosecondsForServo0Degree)
      (by omega) (by omega),
    toInt32_of_bounds (x := d * _) (by omega) (by omega)]
  generalize (d * (s.sMicrosecondsForServo180Degree
    - s.sMicrosecondsForServo0Degree)).tdiv 180 = q at hQ ⊢
  rw [toInt32_of_bounds (x := q) (by omega) (by omega),
    toInt32_of_bounds (by omega) (by omega),
    toInt16_of_IsInt16 ⟨by omega, by omega⟩, Int.add_comm]

/-- The microsecond conversion of `p0 + q` for a 16-bit calibration pair with distinct
endpoints and an offset `q` of at most 16 bits: no intermediate value overflows. -/
theorem MicrosecondsToDegree_of_offset (s : State)
    (h0 : IsInt16 s.sMicrosecondsForServo0Degree)
    (h180 : IsInt16 s.sMicrosecondsForServo180Degree)
    (hne : s.sMicrosecondsForServo180Degree - s.sMicrosecondsForServo0Degree ≠ 0)
    (q : Int) (hq1 : -65535 ≤ q) (hq2 : q ≤ 65535) :
    MicrosecondsToDegreeLightweightServo s (s.sMicrosecondsForServo0Degree + q) =
      some (toInt16 (toInt32 ((q * 180).tdiv
        (s.sMicrosecondsForServo180Degree - s.sMicrosecondsForServo0Degree)))) := by
  have b0 := h0
  have b180 := h180
  unfold IsInt16 at b0 b180
  have e180 : toInt32 180 = 180 := by decide
  have hz : (180 : Int) - 0 = 180 := by decide
  have eD : toInt32 (s.sMicrosecondsForServo180Degree - s.sMicrosecondsForServo0Degree)
      = s.sMicrosecondsForServo180Degree - s.sMicrosecondsForServo0Degree :=
    toInt32_of_bounds (by omega) (by omega)
  have eq1 : s.sMicrosecondsForServo0Degree + q - s.sMicrosecondsForServo0Degree = q := by
    omega
  simp only [MicrosecondsToDegreeLightweightServo, map, eD, hne, if_false, Option.map_some',
    hz, e180, eq1, Int.add_zero]
  rw [toInt32_of_bounds (x := q) (by omega) (by omega),
    toInt32_of_bounds (x := q * 180) (by omega) (by omega), toInt32_toInt32]

/-- Scaling up by the calibration span and back down loses at most one degree. -/
theorem round_trip_core (d E : Int) (hE : 180 ≤ E) (hd0 : 0 ≤ d) :
    d * E / 180 * 180 / E = d ∨ d * E / 180 * 180 / E = d - 1 := by
  have hEpos : 0 < E := by omega
  have hP : 0 ≤ d * E := Int.mul_nonneg hd0 (le_of_lt hEpos)
  generalize hq : d * E / 180 = q
  have hq1 : q * 180 ≤ d * E := by
    rw [← hq]
    exact Int.ediv_mul_le _ (by decide)
  have hq2 : d * E < (q + 1) * 180 := by
    rw [← hq]
    exact Int.lt_ediv_add_one_mul_self _ (by decide)
  generalize hr : q * 180 / E = r
  have hr1 : r * E ≤ q * 180 := by
    rw [← hr]
    exact Int.ediv_mul_le _ (ne_of_gt hEpos)
  have hr2 : q * 180 < (r + 1) * E := by
    rw [← hr]
    exact Int.lt_ediv_add_one_mul_self _ hEpos
  have h1 : r ≤ d := by
    by_contra hc
    have : d + 1 ≤ r := by omega
    nlinarith
  have h2 : d - 1 ≤ r := by
    by_contra hc
    have : r + 1 ≤ d - 1 := by omega
    nlinarith
  omega

/-- The truncating quotients of the round trip, for either orientation of a span of at
least 180. -/
theorem round_trip_tdiv (d D : Int) (hD : 180 ≤ D ∨ D ≤ -180) (hd0 : 0 ≤ d) :
    (((d * D).tdiv 180) * 180).tdiv D = d ∨ (((d * D).tdiv 180) * 180).tdiv D = d - 1 := by
  rcases hD with hD | hD
  · have hDpos : 0 ≤ D := by omega
    have hP : 0 ≤ d * D := Int.mul_nonneg hd0 hDpos
    have hq : 0 ≤ d * D / 180 := Int.ediv_nonneg hP (by decide)
    rw [Int.tdiv_eq_ediv hP (by decide), Int.tdiv_eq_ediv (by omega) hDpos]
    exact round_trip_core d D hD hd0
  · obtain ⟨E, hE⟩ : ∃ E : Int, D = -E := ⟨-D, by omega⟩
    subst hE
    have hEpos : 0 ≤ E := by omega
    have hP : 0 ≤ d * E := Int.mul_nonneg hd0 hEpos
    have hq : 0 ≤ d * E / 180 := Int.ediv_nonneg hP (by decide)
    have e1 : d * -E = -(d * E) := by ring
    have e2 : -(d * E / 180) * 180 = -(d * E / 180 * 180) := by ring
    rw [e1, Int.neg_tdiv, Int.tdiv_eq_ediv hP (by decide), e2, Int.neg_tdiv_neg,
      Int.tdiv_eq_ediv (by omega) hEpos]
    exact round_trip_core d E (by omega) hd0

/-! ## Calibration endpoints -/

/-- C1: after `setLightweightServoPulseMicrosFor0And180Degree(p0, p180)` with 16-bit
signed `p0`, `p180`, the conversion of 0 degrees is exactly `p0` and the conversion of
180 degrees is exactly `p180`. -/
theorem C1_calibration_endpoints (s : State) (p0 p180 : Int)
    (h0 : IsInt16 p0) (h180 : IsInt16 p180) :
    DegreeToMicrosecondsLightweightServo
        (setLightweightServoPulseMicrosFor0And180Degree p0 p180 s) 0 = some p0 ∧
    DegreeToMicrosecondsLightweightServo
        (setLightweightServoPulseMicrosFor0And180Degree p0 p180 s) 180 = some p180 := by
  have b0 := h0
  have b180 := h180
  unfold IsInt16 at b0 b180
  have e0 : toInt32 0 = 0 := by decide
  have e180 : toInt32 180 = 180 := by decide
  have eD : toInt32 (p180 - p0) = p180 - p0 := toInt32_of_bounds (by omega) (by omega)
  constructor
  · rw [DegreeToMicroseconds_eq]
    simp only [setLightweightServoPulseMicrosFor0And180Degree, e0, Int.zero_mul, Int.zero_tdiv,
      Int.zero_add]
    rw [toInt32_of_bounds (by omega) (by omega), toInt16_of_IsInt16 h0]
  · rw [DegreeToMicroseconds_eq]
    simp only [setLightweightServoPulseMicrosFor0And180Degree, e180, eD]
    rw [toInt32_of_bounds (x := 180 * (p180 - p0)) (by omega) (by omega),
      Int.mul_tdiv_cancel_left _ (by decide), eD, Int.sub_add_cancel,
      toInt32_of_bounds (by omega) (by omega), toInt16_of_IsInt16 h180]

/-- Witness for C1 at the calibration pair (1000, 2000) installed on the reset state. -/
theorem C1_calibration_endpoints_witness :
    IsInt16 1000 ∧ IsInt16 2000 ∧
    DegreeToMicrosecondsLightweightServo
        (setLightweightServoPulseMicrosFor0And180Degree 1000 2000 resetState) 0 = some 1000 ∧
    DegreeToMicrosecondsLightweightServo
        (setLightweightServoPulseMicrosFor0And180Degree 1000 2000 resetState) 180 = some 2000 :=
  ⟨by decide, by decide, C1_calibration_endpoints resetState 1000 2000 (by decide) (by decide)⟩

/-! ## Compare register -/

/-- C2: a write of `m` microseconds leaves the compare register of the selected channel
holding `2 * m` reduced modulo `2^16`, for every integer `m`, either channel, either value
of `aUpdateFast` and every prior state; when `0 ≤ 2 * m < 65536` that is `2 * m` itself.
No range check and no clamp to the period is applied. -/
theorem C2_compare_register_twice_micros (m : Int) (aUsePin9 aUpdateFast : Bool) (s : State) :
    ((compareRegister aUsePin9
        (writeMicrosecondsLightweightServo m aUsePin9 aUpdateFast s) : Nat) : Int)
      = (2 * m) % 65536 ∧
    (0 ≤ 2 * m → 2 * m < 65536 →
      ((compareRegister aUsePin9
        (writeMicrosecondsLightweightServo m aUsePin9 aUpdateFast s) : Nat) : Int) = 2 * m) := by
  have key : ((compareRegister aUsePin9
        (writeMicrosecondsLightweightServo m aUsePin9 aUpdateFast s) : Nat) : Int)
      = (2 * m) % 65536 := by
    rw [write_compareRegister, toUInt16_toInt16]
    omega
  refine ⟨key, fun h1 h2 => ?_⟩
  rw [key]
  omega

/-- Witness for C2: 25000 microseconds on channel A from the reset state gives 50000,
above the period 40000. -/
theorem C2_compare_register_twice_micros_witness :
    ((compareRegister true
        (writeMicrosecondsLightweightServo 25000 true false resetState) : Nat) : Int) = 2 * 25000 :=
  (C2_compare_register_twice_micros 25000 true false resetState).2 (by decide) (by decide)

/-! ## Auto-initialisation on first use -/

/-- C3: when the enable bit of the requested channel is clear in TCCR1A (in particular
in the reset state), one write on that channel ends with TCCR1B = WGM13|WGM12|CS11,
ICR1 = 40000 and TCCR1A = WGM11 | requested enable bit | the other channel enable bit as
it was before the call. -/
theorem C3_first_write_configures (m : Int) (aUsePin9 aUpdateFast : Bool) (s : State)
    (h : s.TCCR1A &&& enableBit aUsePin9 = 0) :
    (writeMicrosecondsLightweightServo m aUsePin9 aUpdateFast s).TCCR1B
        = _BV WGM13 ||| _BV WGM12 ||| _BV CS11 ∧
    (writeMicrosecondsLightweightServo m aUsePin9 aUpdateFast s).ICR1 = 40000 ∧
    (writeMicrosecondsLightweightServo m aUsePin9 aUpdateFast s).TCCR1A
        = _BV WGM11 ||| enableBit aUsePin9 ||| (s.TCCR1A &&& enableBit (!aUsePin9)) := by
  have hn := needsInit_of_enable_clear aUsePin9 s h
  have hm : _BV COM1A1 ||| _BV COM1B1 = 160 := by decide
  refine ⟨?_, ?_, ?_⟩
  · rw [write_TCCR1B, hn, if_pos rfl, init_TCCR1B]
  · rw [write_ICR1, hn, if_pos rfl, init_ICR1]
    rfl
  · rw [write_TCCR1A, hn, if_pos rfl, init_TCCR1A, hm]
    cases aUsePin9
    · show _ = _BV WGM11 ||| _BV COM1B1 ||| (s.TCCR1A &&& 128)
      rw [land_128_eq s.TCCR1A]
      rcases land_160_cases s.TCCR1A with e | e | e | e <;> rw [e] <;> decide
    · show _ = _BV WGM11 ||| _BV COM1A1 ||| (s.TCCR1A &&& 32)
      rw [land_32_eq s.TCCR1A]
      rcases land_160_cases s.TCCR1A with e | e | e | e <;> rw [e] <;> decide

/-- Witness for C3: the first write on channel A from the reset state
(TCCR1A = TCCR1B = 0). -/
theorem C3_first_write_configures_witness :
    resetState.TCCR1A &&& enableBit true = 0 ∧
    (writeMicrosecondsLightweightServo 1500 true false resetState).TCCR1B = 26 ∧
    (writeMicrosecondsLightweightServo 1500 true false resetState).ICR1 = 40000 ∧
    (writeMicrosecondsLightweightServo 1500 true false resetState).TCCR1A = 130 :=
  ⟨by decide, C3_first_write_configures 1500 true false resetState (by decide)⟩

/-! ## Degrees or microseconds -/

/-- C4: `writeLightweightServo(v, channel, aUpdateFast)` always returns; the returned
value is `DegreeToMicrosecondsLightweightServo(v)` when `v ≤ 180` and `v` itself when
`v > 180`, and the compare register of the selected channel afterwards holds twice the
returned value modulo `2^16`. -/
theorem C4_write_returns_written_micros (v : Int) (aUsePin9 aUpdateFast : Bool) (s : State) :
    ∃ r s1, writeLightweightServo v aUsePin9 aUpdateFast s = some (r, s1) ∧
      (if v ≤ 180 then DegreeToMicrosecondsLightweightServo s v = some r else r = v) ∧
      ((compareRegister aUsePin9 s1 : Nat) : Int) = (2 * r) % 65536 := by
  have hcmp : ∀ r : Int, ((compareRegister aUsePin9
      (writeMicrosecondsLightweightServo r aUsePin9 aUpdateFast s) : Nat) : Int)
        = (2 * r) % 65536 := by
    intro r
    rw [write_compareRegister, toUInt16_toInt16]
    omega
  by_cases hv : v ≤ 180
  · obtain ⟨r, hr⟩ : ∃ r, DegreeToMicrosecondsLightweightServo s v = some r :=
      ⟨_, DegreeToMicroseconds_eq s v⟩
    refine ⟨r, writeMicrosecondsLightweightServo r aUsePin9 aUpdateFast s, ?_, ?_, hcmp r⟩
    · simp [writeLightweightServo, hv, hr]
    · simp [hv, hr]
  · refine ⟨v, writeMicrosecondsLightweightServo v aUsePin9 aUpdateFast s, ?_, ?_, hcmp v⟩
    · simp [writeLightweightServo, hv]
    · simp [hv]

/-! ## Default mid position -/

/-- C5: with the calibration (544, 2400), configuring channel A only and then writing
90 degrees on channel A returns 1472 and leaves OCR1A = 2944. -/
theorem C5_ninety_degrees_default (s : State)
    (h0 : s.sMicrosecondsForServo0Degree = 544)
    (h180 : s.sMicrosecondsForServo180Degree = 2400) :
    ∃ s1, writeLightweightServo 90 true false (initLightweightServoPin9_10 true false s)
        = some (1472, s1) ∧ s1.OCR1A = 2944 := by
  have hd : DegreeToMicrosecondsLightweightServo (initLightweightServoPin9_10 true false s) 90
      = some 1472 := by
    rw [DegreeToMicroseconds_eq, init_cal0, init_cal180, h0, h180]
    decide
  refine ⟨writeMicrosecondsLightweightServo 1472 true false
    (initLightweightServoPin9_10 true false s), ?_, ?_⟩
  · simp [writeLightweightServo, hd]
  · have hc := write_compareRegister 1472 true false (initLightweightServoPin9_10 true false s)
    simp only [compareRegister, if_true] at hc
    rw [hc]
    decide

/-- Witness for C5 at the reset state, which carries the default calibration. -/
theorem C5_ninety_degrees_default_witness :
    resetState.sMicrosecondsForServo0Degree = 544 ∧
    resetState.sMicrosecondsForServo180Degree = 2400 ∧
    ∃ s1, writeLightweightServo 90 true false (initLightweightServoPin9_10 true false resetState)
        = some (1472, s1) ∧ s1.OCR1A = 2944 :=
  ⟨rfl, rfl, C5_ninety_degrees_default resetState rfl rfl⟩

/-! ## Fast update -/

/-- C6: after any write the counter TCNT1 is 39999 when `aUpdateFast` is set and the
counter was above 10000, and is unchanged otherwise: below 10000, at exactly 10000, and
for every counter value when `aUpdateFast` is clear. -/
theorem C6_fast_update_counter (m : Int) (aUsePin9 aUpdateFast : Bool) (s : State) :
    (writeMicrosecondsLightweightServo m aUsePin9 aUpdateFast s).TCNT1 =
      if aUpdateFast = true ∧ 10000 < s.TCNT1 then 39999 else s.TCNT1 := by
  rw [write_TCNT1]
  rfl

/-! ## Round trip of the conversions -/

/-- C7: with the calibration (544, 2400) and `0 ≤ d ≤ 180`, converting `d` degrees to
microseconds and back gives a result within 1 of `d`; both conversions return. -/
theorem C7_round_trip_default (s : State)
    (h0 : s.sMicrosecondsForServo0Degree = 544)
    (h180 : s.sMicrosecondsForServo180Degree = 2400)
    (d : Int) (hd0 : 0 ≤ d) (hd180 : d ≤ 180) :
    ∃ us d1, DegreeToMicrosecondsLightweightServo s d = some us ∧
      MicrosecondsToDegreeLightweightServo s us = some d1 ∧ d - 1 ≤ d1 ∧ d1 ≤ d + 1 := by
  have e1856 : toInt32 1856 = 1856 := by decide
  have e180 : toInt32 180 = 180 := by decide
  have ed : toInt32 d = d := toInt32_of_bounds (by omega) (by omega)
  have hsub : (2400 : Int) - 544 = 1856 := by decide
  have hus : DegreeToMicrosecondsLightweightServo s d = some (d * 1856 / 180 + 544) := by
    rw [DegreeToMicroseconds_eq, h0, h180, hsub, e1856, ed,
      toInt32_of_bounds (x := d * 1856) (by omega) (by omega),
      Int.tdiv_eq_ediv (by omega) (by decide),
      toInt32_of_bounds (x := d * 1856 / 180) (by omega) (by omega),
      toInt32_of_bounds (by omega) (by omega),
      toInt16_of_IsInt16 ⟨by omega, by omega⟩]
  have hback : MicrosecondsToDegreeLightweightServo s (d * 1856 / 180 + 544)
      = some (d * 1856 / 180 * 180 / 1856) := by
    have hz : (180 : Int) - 0 = 180 := by decide
    have hne : ¬ ((1856 : Int) = 0) := by decide
    simp only [MicrosecondsToDegreeLightweightServo, map, h0, h180, hsub, e1856, hz, e180,
      hne, if_false, Option.map_some', Int.add_sub_cancel, Int.add_zero]
    rw [toInt32_of_bounds (x := d * 1856 / 180) (by omega) (by omega),
      toInt32_of_bounds (x := d * 1856 / 180 * 180) (by omega) (by omega),
      Int.tdiv_eq_ediv (by omega) (by decide),
      toInt32_of_bounds (x := d * 1856 / 180 * 180 / 1856) (by omega) (by omega),
      toInt32_of_bounds (by omega) (by omega),
      toInt16_of_IsInt16 ⟨by omega, by omega⟩]
  exact ⟨_, _, hus, hback, by omega, by omega⟩

/-- Witness for C7 at 91 degrees on the reset state: 91 maps to 1482 microseconds, which
maps back to 90 degrees. -/
theorem C7_round_trip_default_witness :
    ∃ us d1, DegreeToMicrosecondsLightweightServo resetState 91 = some us ∧
      MicrosecondsToDegreeLightweightServo resetState us = some d1 ∧
      (91 : Int) - 1 ≤ d1 ∧ d1 ≤ 91 + 1 :=
  C7_round_trip_default resetState rfl rfl 91 (by decide) (by decide)

/-! ## Mid position for any calibration -/

/-- C8: for every 16-bit signed calibration pair, the conversion of 90 degrees is
`p0 + (p180 - p0) / 2` with the division truncating toward zero; after
`setLightweightServoPulseMicrosFor0And180Degree(1000, 2000)` it is exactly 1500. -/
theorem C8_midpoint (s : State) (p0 p180 : Int) (h0 : IsInt16 p0) (h180 : IsInt16 p180) :
    DegreeToMicrosecondsLightweightServo
        (setLightweightServoPulseMicrosFor0And180Degree p0 p180 s) 90
      = some (p0 + (p180 - p0).tdiv 2) ∧
    DegreeToMicrosecondsLightweightServo
        (setLightweightServoPulseMicrosFor0And180Degree 1000 2000 s) 90 = some 1500 := by
  have key : ∀ a b : Int, IsInt16 a → IsInt16 b →
      DegreeToMicrosecondsLightweightServo
        (setLightweightServoPulseMicrosFor0And180Degree a b s) 90
      = some (a + (b - a).tdiv 2) := by
    intro a b ha hb
    have ba := ha
    have bb := hb
    unfold IsInt16 at ba bb
    have e90 : toInt32 90 = 90 := by decide
    have hdiv : (90 * (b - a)).tdiv 180 = (b - a).tdiv 2 := by
      rw [tdiv_pos_eq _ 180 (by decide), tdiv_pos_eq _ 2 (by decide)]
      split <;> split <;> omega
    have hq : (b - a).tdiv 2 = if 0 ≤ b - a then (b - a) / 2 else -((-(b - a)) / 2) :=
      tdiv_pos_eq _ 2 (by decide)
    rw [DegreeToMicroseconds_eq]
    simp only [setLightweightServoPulseMicrosFor0And180Degree, e90]
    rw [toInt32_of_bounds (x := b - a) (by omega) (by omega),
      toInt32_of_bounds (x := 90 * (b - a)) (by omega) (by omega), hdiv,
      toInt32_of_bounds (x := (b - a).tdiv 2) (by rw [hq]; split <;> omega)
        (by rw [hq]; split <;> omega),
      toInt32_of_bounds (by rw [hq]; split <;> omega) (by rw [hq]; split <;> omega),
      toInt16_of_IsInt16 ⟨by rw [hq]; split <;> omega, by rw [hq]; split <;> omega⟩,
      Int.add_comm]
  refine ⟨key p0 p180 h0 h180, ?_⟩
  rw [key 1000 2000 (by decide) (by decide)]
  decide

/-- Witness for C8 at the descending calibration pair (2001, 1000): the quotient
`-1001 / 2` truncates toward zero to `-500`, giving 1501. -/
theorem C8_midpoint_witness :
    DegreeToMicrosecondsLightweightServo
        (setLightweightServoPulseMicrosFor0And180Degree 2001 1000 resetState) 90
      = some (2001 + (1000 - 2001 : Int).tdiv 2) ∧
    DegreeToMicrosecondsLightweightServo
        (setLightweightServoPulseMicrosFor0And180Degree 1000 2000 resetState) 90 = some 1500 :=
  C8_midpoint resetState 2001 1000 (by decide) (by decide)

/-! ## Selective configuration -/

/-- C9: `initLightweightServoPin9_10(useA, useB)` on an 8-bit DDRB gives
TCCR1A = (TCCR1A & (COM1A1|COM1B1)) | WGM11 | (COM1A1 if useA) | (COM1B1 if useB),
TCCR1B = WGM13|WGM12|CS11, ICR1 = 40000 and DDRB = DDRB | (DDB1 if useA) | (DDB2 if useB). -/
theorem C9_init_selected_registers (aUsePin9 aUsePin10 : Bool) (s : State)
    (h : s.DDRB < 256) :
    (initLightweightServoPin9_10 aUsePin9 aUsePin10 s).TCCR1A =
      (s.TCCR1A &&& (_BV COM1A1 ||| _BV COM1B1)) ||| _BV WGM11 |||
        (if aUsePin9 then _BV COM1A1 else 0) ||| (if aUsePin10 then _BV COM1B1 else 0) ∧
    (initLightweightServoPin9_10 aUsePin9 aUsePin10 s).TCCR1B =
      _BV WGM13 ||| _BV WGM12 ||| _BV CS11 ∧
    (initLightweightServoPin9_10 aUsePin9 aUsePin10 s).ICR1 = 40000 ∧
    (initLightweightServoPin9_10 aUsePin9 aUsePin10 s).DDRB =
      s.DDRB ||| (if aUsePin9 then _BV DDB1 else 0) ||| (if aUsePin10 then _BV DDB2 else 0) :=
  ⟨init_TCCR1A aUsePin9 aUsePin10 s, init_TCCR1B aUsePin9 aUsePin10 s,
    init_ICR1 aUsePin9 aUsePin10 s, init_DDRB aUsePin9 aUsePin10 s h⟩

/-- Witness for C9: channel B added to a timer that runs channel A with stray bits
COM1A0 and WGM10 set (TCCR1A = 0xC3) and an unrelated DDRB bit set. -/
theorem C9_init_selected_registers_witness :
    (initLightweightServoPin9_10 false true
        { resetState with TCCR1A := 195, DDRB := 32 }).TCCR1A = 162 ∧
    (initLightweightServoPin9_10 false true
        { resetState with TCCR1A := 195, DDRB := 32 }).TCCR1B = 26 ∧
    (initLightweightServoPin9_10 false true
        { resetState with TCCR1A := 195, DDRB := 32 }).ICR1 = 40000 ∧
    (initLightweightServoPin9_10 false true
        { resetState with TCCR1A := 195, DDRB := 32 }).DDRB = 36 :=
  C9_init_selected_registers false true { resetState with TCCR1A := 195, DDRB := 32 }
    (by decide)

/-! ## Channel independence -/

/-- C10: a write on channel A leaves OCR1B and the COM1B1 bit of TCCR1A unchanged, a
write on channel B leaves OCR1A and the COM1A1 bit unchanged, and neither changes the
calibration pair. -/
theorem C10_other_channel_undisturbed (m : Int) (aUpdateFast : Bool) (s : State) :
    ((writeMicrosecondsLightweightServo m true aUpdateFast s).OCR1B = s.OCR1B ∧
      (writeMicrosecondsLightweightServo m true aUpdateFast s).TCCR1A &&& _BV COM1B1
        = s.TCCR1A &&& _BV COM1B1) ∧
    ((writeMicrosecondsLightweightServo m false aUpdateFast s).OCR1A = s.OCR1A ∧
      (writeMicrosecondsLightweightServo m false aUpdateFast s).TCCR1A &&& _BV COM1A1
        = s.TCCR1A &&& _BV COM1A1) ∧
    (∀ aUsePin9 : Bool,
      (writeMicrosecondsLightweightServo m aUsePin9 aUpdateFast s).sMicrosecondsForServo0Degree
        = s.sMicrosecondsForServo0Degree ∧
      (writeMicrosecondsLightweightServo m aUsePin9 aUpdateFast s).sMicrosecondsForServo180Degree
        = s.sMicrosecondsForServo180Degree) := by
  refine ⟨⟨write9_OCR1B m aUpdateFast s, ?_⟩, ⟨write10_OCR1A m aUpdateFast s, ?_⟩,
    fun a => ⟨write_cal0 m a aUpdateFast s, write_cal180 m a aUpdateFast s⟩⟩
  · rw [write_TCCR1A]
    cases hn : needsInit true s
    · simp
    · simpa using init_keeps_other_enable true s
  · rw [write_TCCR1A]
    cases hn : needsInit false s
    · simp
    · simpa using init_keeps_other_enable false s

/-! ## Frame of the configuration routines -/

/-- C11: neither configuration routine touches the counter, the compare registers or
the calibration pair: `initLightweightServoPin9And10()` and
`initLightweightServoPin9_10(useA, useB)` leave TCNT1, OCR1A, OCR1B and both calibration
values as they were, from every state. -/
theorem C11_init_leaves_counter_and_pulse_widths (aUsePin9 aUsePin10 : Bool) (s : State) :
    ((initLightweightServoPin9And10 s).TCNT1 = s.TCNT1 ∧
      (initLightweightServoPin9And10 s).OCR1A = s.OCR1A ∧
      (initLightweightServoPin9And10 s).OCR1B = s.OCR1B ∧
      (initLightweightServoPin9And10 s).sMicrosecondsForServo0Degree
        = s.sMicrosecondsForServo0Degree ∧
      (initLightweightServoPin9And10 s).sMicrosecondsForServo180Degree
        = s.sMicrosecondsForServo180Degree) ∧
    ((initLightweightServoPin9_10 aUsePin9 aUsePin10 s).TCNT1 = s.TCNT1 ∧
      (initLightweightServoPin9_10 aUsePin9 aUsePin10 s).OCR1A = s.OCR1A ∧
      (initLightweightServoPin9_10 aUsePin9 aUsePin10 s).OCR1B = s.OCR1B ∧
      (initLightweightServoPin9_10 aUsePin9 aUsePin10 s).sMicrosecondsForServo0Degree
        = s.sMicrosecondsForServo0Degree ∧
      (initLightweightServoPin9_10 aUsePin9 aUsePin10 s).sMicrosecondsForServo180Degree
        = s.sMicrosecondsForServo180Degree) :=
  ⟨⟨rfl, rfl, rfl, rfl, rfl⟩,
    ⟨init_TCNT1 aUsePin9 aUsePin10 s, init_OCR1A aUsePin9 aUsePin10 s,
      init_OCR1B aUsePin9 aUsePin10 s, init_cal0 aUsePin9 aUsePin10 s,
      init_cal180 aUsePin9 aUsePin10 s⟩⟩

/-! ## Idempotence of the configuration -/

/-- C12: configuring twice is the same as configuring once, as an equality of whole
states: for `initLightweightServoPin9_10(useA, useB)` with any flags and for
`initLightweightServoPin9And10()`, from every state. -/
theorem C12_init_idempotent (aUsePin9 aUsePin10 : Bool) (s : State) :
    initLightweightServoPin9_10 aUsePin9 aUsePin10
        (initLightweightServoPin9_10 aUsePin9 aUsePin10 s)
      = initLightweightServoPin9_10 aUsePin9 aUsePin10 s ∧
    initLightweightServoPin9And10 (initLightweightServoPin9And10 s)
      = initLightweightServoPin9And10 s := by
  have hy := or_pins_fin ⟨s.DDRB % 256, Nat.mod_lt _ (by decide)⟩
  simp only [] at hy
  have hm : _BV COM1A1 ||| _BV COM1B1 = 160 := by decide
  constructor
  · apply State.eq_of_fields
    · rw [init_DDRB_gen, init_DDRB_gen]
      cases aUsePin9 <;> cases aUsePin10 <;>
        simp only [if_true, if_false, Bool.false_eq_true]
      · rw [Nat.mod_eq_of_lt hy.2.2.2.2.2.2.1, hy.2.1]
      · rw [Nat.mod_eq_of_lt hy.2.2.2.2.2.1, hy.1]
      · rw [Nat.mod_eq_of_lt hy.2.2.2.2.2.2.2.1, hy.2.2.1]
    · rw [init_TCCR1A, init_TCCR1A, hm]
      cases aUsePin9 <;> cases aUsePin10 <;>
        rcases land_160_cases s.TCCR1A with h | h | h | h <;> rw [h] <;> decide
    · rw [init_TCCR1B, init_TCCR1B]
    · rw [init_ICR1, init_ICR1]
    · rw [init_TCNT1]
    · rw [init_OCR1A]
    · rw [init_OCR1B]
    · rw [init_cal0]
    · rw [init_cal180]
  · apply State.eq_of_fields
    · rw [initBoth_DDRB, initBoth_DDRB, Nat.mod_eq_of_lt hy.2.2.2.2.2.2.2.2, hy.2.2.2.2.1]
    all_goals rfl

/-! ## Extrapolation outside the angular domain -/

/-- C13: with the calibration (544, 2400) the degree conversion extrapolates instead of
clamping: for `180 < d ≤ 3000` the result exceeds 2400, for `-3000 ≤ d < 0` it is below
544; 181 degrees give 2410 and -1 degree gives 534. -/
theorem C13_extrapolates_default (s : State)
    (h0 : s.sMicrosecondsForServo0Degree = 544)
    (h180 : s.sMicrosecondsForServo180Degree = 2400) (d : Int) :
    (180 < d → d ≤ 3000 →
      ∃ us, DegreeToMicrosecondsLightweightServo s d = some us ∧ 2400 < us) ∧
    (-3000 ≤ d → d < 0 →
      ∃ us, DegreeToMicrosecondsLightweightServo s d = some us ∧ us < 544) ∧
    DegreeToMicrosecondsLightweightServo s 181 = some 2410 ∧
    DegreeToMicrosecondsLightweightServo s (-1) = some 534 := by
  have e1856 : toInt32 1856 = 1856 := by decide
  have hsub : (2400 : Int) - 544 = 1856 := by decide
  have key : ∀ x : Int, -3000 ≤ x → x ≤ 3000 →
      DegreeToMicrosecondsLightweightServo s x = some ((x * 1856).tdiv 180 + 544) := by
    intro x hx1 hx2
    have hq := tdiv_pos_eq (x * 1856) 180 (by decide)
    rw [DegreeToMicroseconds_eq, h0, h180, hsub, e1856,
      toInt32_of_bounds (x := x) (by omega) (by omega),
      toInt32_of_bounds (x := x * 1856) (by omega) (by omega),
      toInt32_of_bounds (x := (x * 1856).tdiv 180) (by rw [hq]; split <;> omega)
        (by rw [hq]; split <;> omega),
      toInt32_of_bounds (by rw [hq]; split <;> omega) (by rw [hq]; split <;> omega),
      toInt16_of_IsInt16 ⟨by rw [hq]; split <;> omega, by rw [hq]; split <;> omega⟩]
  refine ⟨fun h1 h2 => ⟨_, key d (by omega) h2, ?_⟩,
    fun h1 h2 => ⟨_, key d h1 (by omega), ?_⟩, ?_, ?_⟩
  · rw [tdiv_pos_eq (d * 1856) 180 (by decide)]
    split <;> omega
  · rw [tdiv_pos_eq (d * 1856) 180 (by decide)]
    split <;> omega
  · rw [key 181 (by decide) (by decide)]
    decide
  · rw [key (-1) (by decide) (by decide)]
    decide

/-- Witness for C13 on the reset state at 3000 degrees, the upper end of the stated
range, where the result 31477 still fits the `int` return type. -/
theorem C13_extrapolates_default_witness :
    ∃ us, DegreeToMicrosecondsLightweightServo resetState 3000 = some us ∧ 2400 < us :=
  (C13_extrapolates_default resetState rfl rfl 3000).1 (by decide) (by decide)

/-! ## Drift in the mode registers -/

/-- C14: from every 8-bit TCCR1A and every TCCR1B, a write ends with
TCCR1B = WGM13|WGM12|CS11 and TCCR1A = WGM11 | requested enable bit | (TCCR1A before &
the other enable bit); the stray bits COM1A0, COM1B0 and WGM10 are clear afterwards. -/
theorem C14_write_corrects_drift (m : Int) (aUsePin9 aUpdateFast : Bool) (s : State)
    (h : s.TCCR1A < 256) :
    (writeMicrosecondsLightweightServo m aUsePin9 aUpdateFast s).TCCR1B
        = _BV WGM13 ||| _BV WGM12 ||| _BV CS11 ∧
    (writeMicrosecondsLightweightServo m aUsePin9 aUpdateFast s).TCCR1A
        = _BV WGM11 ||| enableBit aUsePin9 ||| (s.TCCR1A &&& enableBit (!aUsePin9)) ∧
    (writeMicrosecondsLightweightServo m aUsePin9 aUpdateFast s).TCCR1A
        &&& (_BV COM1A0 ||| _BV COM1B0 ||| _BV WGM10) = 0 := by
  have hm : _BV COM1A1 ||| _BV COM1B1 = 160 := by decide
  have hA : (writeMicrosecondsLightweightServo m aUsePin9 aUpdateFast s).TCCR1A
      = _BV WGM11 ||| enableBit aUsePin9 ||| (s.TCCR1A &&& enableBit (!aUsePin9)) := by
    rw [write_TCCR1A]
    cases hn : needsInit aUsePin9 s
    · have hs := (needsInit_eq_false_iff aUsePin9 s).1 hn
      have hy := steady_value_fin ⟨s.TCCR1A, h⟩
      simp only [Bool.false_eq_true, if_false]
      cases aUsePin9
      · exact hy.2 hs.2
      · exact hy.1 hs.2
    · simp only [if_true]
      rw [init_TCCR1A, hm]
      cases aUsePin9
      · show _ = _BV WGM11 ||| _BV COM1B1 ||| (s.TCCR1A &&& 128)
        rw [land_128_eq s.TCCR1A]
        rcases land_160_cases s.TCCR1A with e | e | e | e <;> rw [e] <;> decide
      · show _ = _BV WGM11 ||| _BV COM1A1 ||| (s.TCCR1A &&& 32)
        rw [land_32_eq s.TCCR1A]
        rcases land_160_cases s.TCCR1A with e | e | e | e <;> rw [e] <;> decide
  refine ⟨?_, hA, ?_⟩
  · rw [write_TCCR1B]
    cases hn : needsInit aUsePin9 s
    · exact ((needsInit_eq_false_iff aUsePin9 s).1 hn).1
    · simp only [if_true]
      rw [init_TCCR1B]
  · rw [hA]
    cases aUsePin9
    · show (_BV WGM11 ||| _BV COM1B1 ||| (s.TCCR1A &&& 128)) &&& _ = 0
      rw [land_128_eq s.TCCR1A]
      rcases land_160_cases s.TCCR1A with e | e | e | e <;> rw [e] <;> decide
    · show (_BV WGM11 ||| _BV COM1A1 ||| (s.TCCR1A &&& 32)) &&& _ = 0
      rw [land_32_eq s.TCCR1A]
      rcases land_160_cases s.TCCR1A with e | e | e | e <;> rw [e] <;> decide

/-- Witness for C14: a write on channel B while TCCR1A = 0xD7 (both enable bits, the
stray bits COM1A0, COM1B0, WGM10 and bit 2) and TCCR1B = 0xFF. -/
theorem C14_write_corrects_drift_witness :
    (writeMicrosecondsLightweightServo 1500 false true
        { resetState with TCCR1A := 215, TCCR1B := 255 }).TCCR1B = 26 ∧
    (writeMicrosecondsLightweightServo 1500 false true
        { resetState with TCCR1A := 215, TCCR1B := 255 }).TCCR1A = 162 ∧
    (writeMicrosecondsLightweightServo 1500 false true
        { resetState with TCCR1A := 215, TCCR1B := 255 }).TCCR1A &&& 81 = 0 :=
  C14_write_corrects_drift 1500 false true { resetState with TCCR1A := 215, TCCR1B := 255 }
    (by decide)

/-! ## Steady state -/

/-- C15: when TCCR1B = WGM13|WGM12|CS11 and TCCR1A with the other enable bit masked out
is WGM11 | requested enable bit, a write on that channel leaves TCCR1A, TCCR1B, ICR1 and
DDRB unchanged.  Every write ends in such a state for its channel, so for a second
consecutive write on the same channel the auto-initialisation test is negative and none
of the four registers changes, and the same holds for any write that follows a sequence
of writes in which both channels occur. -/
theorem C15_no_reconfiguration_in_steady_state (m : Int) (aUsePin9 aUpdateFast : Bool)
    (s : State) :
    (s.TCCR1B = _BV WGM13 ||| _BV WGM12 ||| _BV CS11 →
      s.TCCR1A &&& not16 (enableBit (!aUsePin9)) = _BV WGM11 ||| enableBit aUsePin9 →
      (writeMicrosecondsLightweightServo m aUsePin9 aUpdateFast s).TCCR1A = s.TCCR1A ∧
      (writeMicrosecondsLightweightServo m aUsePin9 aUpdateFast s).TCCR1B = s.TCCR1B ∧
      (writeMicrosecondsLightweightServo m aUsePin9 aUpdateFast s).ICR1 = s.ICR1 ∧
      (writeMicrosecondsLightweightServo m aUsePin9 aUpdateFast s).DDRB = s.DDRB) ∧
    ((writeMicrosecondsLightweightServo m aUsePin9 aUpdateFast s).TCCR1B
        = _BV WGM13 ||| _BV WGM12 ||| _BV CS11 ∧
      (writeMicrosecondsLightweightServo m aUsePin9 aUpdateFast s).TCCR1A
        &&& not16 (enableBit (!aUsePin9)) = _BV WGM11 ||| enableBit aUsePin9) ∧
    (∀ (m2 : Int) (f2 : Bool),
      needsInit aUsePin9 (writeMicrosecondsLightweightServo m aUsePin9 aUpdateFast s) = false ∧
      (writeMicrosecondsLightweightServo m2 aUsePin9 f2
          (writeMicrosecondsLightweightServo m aUsePin9 aUpdateFast s)).TCCR1A
        = (writeMicrosecondsLightweightServo m aUsePin9 aUpdateFast s).TCCR1A ∧
      (writeMicrosecondsLightweightServo m2 aUsePin9 f2
          (writeMicrosecondsLightweightServo m aUsePin9 aUpdateFast s)).TCCR1B
        = (writeMicrosecondsLightweightServo m aUsePin9 aUpdateFast s).TCCR1B ∧
      (writeMicrosecondsLightweightServo m2 aUsePin9 f2
          (writeMicrosecondsLightweightServo m aUsePin9 aUpdateFast s)).ICR1
        = (writeMicrosecondsLightweightServo m aUsePin9 aUpdateFast s).ICR1 ∧
      (writeMicrosecondsLightweightServo m2 aUsePin9 f2
          (writeMicrosecondsLightweightServo m aUsePin9 aUpdateFast s)).DDRB
        = (writeMicrosecondsLightweightServo m aUsePin9 aUpdateFast s).DDRB) ∧
    (∀ ws : List (Int × Bool × Bool),
      (∃ w ∈ ws, w.2.1 = true) → (∃ w ∈ ws, w.2.1 = false) →
      needsInit aUsePin9 (writeSequence ws s) = false ∧
      (writeMicrosecondsLightweightServo m aUsePin9 aUpdateFast (writeSequence ws s)).TCCR1A
        = (writeSequence ws s).TCCR1A ∧
      (writeMicrosecondsLightweightServo m aUsePin9 aUpdateFast (writeSequence ws s)).TCCR1B
        = (writeSequence ws s).TCCR1B ∧
      (writeMicrosecondsLightweightServo m aUsePin9 aUpdateFast (writeSequence ws s)).ICR1
        = (writeSequence ws s).ICR1 ∧
      (writeMicrosecondsLightweightServo m aUsePin9 aUpdateFast (writeSequence ws s)).DDRB
        = (writeSequence ws s).DDRB) := by
  refine ⟨fun h1 h2 => ?_, ?_, fun m2 f2 => ?_, fun ws hA hB => ?_⟩
  · exact write_config_unchanged m aUsePin9 aUpdateFast s
      ((needsInit_eq_false_iff aUsePin9 s).2 ⟨h1, h2⟩)
  · exact (needsInit_eq_false_iff aUsePin9 _).1
      (needsInit_write_self m aUsePin9 aUpdateFast s)
  · exact ⟨needsInit_write_self m aUsePin9 aUpdateFast s,
      write_config_unchanged m2 aUsePin9 f2 _
        (needsInit_write_self m aUsePin9 aUpdateFast s)⟩
  · have hn : needsInit aUsePin9 (writeSequence ws s) = false := by
      apply needsInit_writeSequence
      right
      cases aUsePin9
      · exact hB
      · exact hA
    exact ⟨hn, write_config_unchanged m aUsePin9 aUpdateFast _ hn⟩

/-- Witness for C15: a write on channel A in the state left by
`initLightweightServoPin9And10()` on the reset state, where both channels are enabled. -/
theorem C15_no_reconfiguration_in_steady_state_witness :
    (writeMicrosecondsLightweightServo 1500 true false
        (initLightweightServoPin9And10 resetState)).TCCR1A = 162 ∧
    (writeMicrosecondsLightweightServo 1500 true false
        (initLightweightServoPin9And10 resetState)).TCCR1B = 26 ∧
    (writeMicrosecondsLightweightServo 1500 true false
        (initLightweightServoPin9And10 resetState)).ICR1 = 40000 ∧
    (writeMicrosecondsLightweightServo 1500 true false
        (initLightweightServoPin9And10 resetState)).DDRB = 6 :=
  (C15_no_reconfiguration_in_steady_state 1500 true false
    (initLightweightServoPin9And10 resetState)).1 (by decide) (by decide)

/-! ## The configured invariant -/

/-- C16: the configured condition (TCCR1B = WGM13|WGM12|CS11, ICR1 = 40000, TCCR1A apart
from the enable bits = WGM11) holds after either configuration routine from every state,
and every operation of the module keeps it: both configuration routines,
`writeMicrosecondsLightweightServo`, `writeLightweightServo`, `write9`, `write10`,
`writeMicroseconds9`, `writeMicroseconds10` and the calibration setter, with any
arguments; the operations that return a value do return. -/
theorem C16_configured_invariant (s : State) :
    Configured (initLightweightServoPin9And10 s) ∧
    (∀ a b : Bool, Configured (initLightweightServoPin9_10 a b s)) ∧
    (Configured s →
      (∀ (m : Int) (a f : Bool), Configured (writeMicrosecondsLightweightServo m a f s)) ∧
      (∀ (v : Int) (a f : Bool), ∃ r s1,
        writeLightweightServo v a f s = some (r, s1) ∧ Configured s1) ∧
      (∀ (v : Int) (f : Bool), ∃ s1, write9 v f s = some s1 ∧ Configured s1) ∧
      (∀ (v : Int) (f : Bool), ∃ s1, write10 v f s = some s1 ∧ Configured s1) ∧
      (∀ (m : Int) (f : Bool), Configured (writeMicroseconds9 m f s)) ∧
      (∀ (m : Int) (f : Bool), Configured (writeMicroseconds10 m f s)) ∧
      (∀ p0 p180 : Int,
        Configured (setLightweightServoPulseMicrosFor0And180Degree p0 p180 s)) ∧
      s.ICR1 = 40000) := by
  have hw : ∀ (v : Int) (a f : Bool), Configured s → ∃ r s1,
      writeLightweightServo v a f s = some (r, s1) ∧ Configured s1 := by
    intro v a f h
    by_cases hv : v ≤ 180
    · obtain ⟨r, hr⟩ : ∃ r, DegreeToMicrosecondsLightweightServo s v = some r :=
        ⟨_, DegreeToMicroseconds_eq s v⟩
      refine ⟨r, _, ?_, Configured_write r a f s h⟩
      simp only [writeLightweightServo, hv, if_true, hr, Option.map_some']
    · refine ⟨v, _, ?_, Configured_write v a f s h⟩
      simp only [writeLightweightServo, hv, if_false, Option.map_some']
  refine ⟨Configured_initBoth s, fun a b => Configured_init a b s, fun h =>
    ⟨fun m a f => Configured_write m a f s h, fun v a f => hw v a f h, fun v f => ?_,
      fun v f => ?_, fun m f => Configured_write m true f s h,
      fun m f => Configured_write m false f s h, fun p0 p180 => h, h.2.1⟩⟩
  · obtain ⟨r, s1, e, hc⟩ := hw v true f h
    exact ⟨s1, by simp [write9, e], hc⟩
  · obtain ⟨r, s1, e, hc⟩ := hw v false f h
    exact ⟨s1, by simp [write10, e], hc⟩

/-- Witness for C16: in the configured state reached by a first write on channel A from
the reset state, a further write on channel B keeps the configured condition. -/
theorem C16_configured_invariant_witness :
    Configured (writeMicrosecondsLightweightServo 1500 true false resetState) ∧
    Configured (writeMicrosecondsLightweightServo 1000 false true
      (writeMicrosecondsLightweightServo 1500 true false resetState)) :=
  ⟨by decide, ((C16_configured_invariant
    (writeMicrosecondsLightweightServo 1500 true false resetState)).2.2 (by decide)).1
      1000 false true⟩

/-! ## Round trip for a general calibration pair -/

/-- C17: for every 16-bit calibration pair whose endpoints differ by at least 180, in
either orientation, and every `0 ≤ d ≤ 180`, converting `d` degrees to microseconds and
back returns `d` or `d - 1`; both conversions return. -/
theorem C17_round_trip_general (s : State)
    (h0 : IsInt16 s.sMicrosecondsForServo0Degree)
    (h180 : IsInt16 s.sMicrosecondsForServo180Degree)
    (hspan : 180 ≤ s.sMicrosecondsForServo180Degree - s.sMicrosecondsForServo0Degree ∨
      s.sMicrosecondsForServo180Degree - s.sMicrosecondsForServo0Degree ≤ -180)
    (d : Int) (hd0 : 0 ≤ d) (hd : d ≤ 180) :
    ∃ us d1, DegreeToMicrosecondsLightweightServo s d = some us ∧
      MicrosecondsToDegreeLightweightServo s us = some d1 ∧ (d1 = d ∨ d1 = d - 1) := by
  have b0 := h0
  have b180 := h180
  unfold IsInt16 at b0 b180
  obtain ⟨hpos, hneg⟩ := tdiv180_bounds d
    (s.sMicrosecondsForServo180Degree - s.sMicrosecondsForServo0Degree) hd0 hd
  have hq : -65535 ≤ (d * (s.sMicrosecondsForServo180Degree
        - s.sMicrosecondsForServo0Degree)).tdiv 180 ∧
      (d * (s.sMicrosecondsForServo180Degree - s.sMicrosecondsForServo0Degree)).tdiv 180
        ≤ 65535 := by
    rcases Int.le_total 0 (s.sMicrosecondsForServo180Degree - s.sMicrosecondsForServo0Degree)
      with hD | hD
    · have := hpos hD
      constructor <;> omega
    · have := hneg hD
      constructor <;> omega
  have hne : s.sMicrosecondsForServo180Degree - s.sMicrosecondsForServo0Degree ≠ 0 := by
    omega
  have hr := round_trip_tdiv d
    (s.sMicrosecondsForServo180Degree - s.sMicrosecondsForServo0Degree) hspan hd0
  refine ⟨_, _, DegreeToMicroseconds_of_range s h0 h180 d hd0 hd,
    MicrosecondsToDegree_of_offset s h0 h180 hne _ hq.1 hq.2, ?_⟩
  generalize (((d * (s.sMicrosecondsForServo180Degree
    - s.sMicrosecondsForServo0Degree)).tdiv 180) * 180).tdiv
      (s.sMicrosecondsForServo180Degree - s.sMicrosecondsForServo0Degree) = r at hr ⊢
  rw [toInt32_of_bounds (x := r) (by omega) (by omega),
    toInt16_of_IsInt16 ⟨by omega, by omega⟩]
  exact hr

/-- Witness for C17 at the descending calibration pair (2400, 544) and 91 degrees:
91 maps to 1462 microseconds, which maps back to 90 degrees. -/
theorem C17_round_trip_general_witness :
    ∃ us d1, DegreeToMicrosecondsLightweightServo
        (setLightweightServoPulseMicrosFor0And180Degree 2400 544 resetState) 91 = some us ∧
      MicrosecondsToDegreeLightweightServo
        (setLightweightServoPulseMicrosFor0And180Degree 2400 544 resetState) us = some d1 ∧
      (d1 = 91 ∨ d1 = 91 - 1) :=
  C17_round_trip_general (setLightweightServoPulseMicrosFor0And180Degree 2400 544 resetState)
    (by decide) (by decide) (Or.inr (by decide)) 91 (by decide) (by decide)

/-! ## Division by zero -/

/-- C18: for a 16-bit calibration pair the microsecond-to-degree conversion has a result
exactly when the calibration endpoints differ; after
`setLightweightServoPulseMicrosFor0And180Degree(p, p)` it has none for any argument; the
degree-to-microsecond conversion has a result for every argument and calibration. -/
theorem C18_division_defined (s : State) (us d p : Int) :
    (IsInt16 s.sMicrosecondsForServo0Degree → IsInt16 s.sMicrosecondsForServo180Degree →
      ((MicrosecondsToDegreeLightweightServo s us).isSome = true ↔
        s.sMicrosecondsForServo0Degree ≠ s.sMicrosecondsForServo180Degree)) ∧
    MicrosecondsToDegreeLightweightServo
      (setLightweightServoPulseMicrosFor0And180Degree p p s) us = none ∧
    (DegreeToMicrosecondsLightweightServo s d).isSome = true := by
  refine ⟨fun h0 h180 => ?_, ?_, ?_⟩
  · unfold IsInt16 at h0 h180
    have eD : toInt32 (s.sMicrosecondsForServo180Degree - s.sMicrosecondsForServo0Degree)
        = s.sMicrosecondsForServo180Degree - s.sMicrosecondsForServo0Degree :=
      toInt32_of_bounds (by omega) (by omega)
    simp only [MicrosecondsToDegreeLightweightServo, map, eD, Option.isSome_map']
    by_cases hz : s.sMicrosecondsForServo180Degree - s.sMicrosecondsForServo0Degree = 0
    · simp only [hz, if_true, Option.isSome_none, Bool.false_eq_true, false_iff, not_not]
      omega
    · simp only [hz, if_false, Option.isSome_some, true_iff]
      omega
  · have ez : toInt32 0 = 0 := by decide
    simp [MicrosecondsToDegreeLightweightServo, map,
      setLightweightServoPulseMicrosFor0And180Degree, ez]
  · rw [DegreeToMicroseconds_eq]
    rfl

/-- Witness for C18 on the reset state, whose endpoints 544 and 2400 differ: the
conversion of 1472 microseconds has a result. -/
theorem C18_division_defined_witness :
    (MicrosecondsToDegreeLightweightServo resetState 1472).isSome = true :=
  ((C18_division_defined resetState 1472 0 0).1 (by decide) (by decide)).2 (by decide)

/-! ## Monotonicity -/

/-- C19: for a 16-bit calibration pair and `0 ≤ d1 ≤ d2 ≤ 180` both degree conversions
return; with `p0 ≤ p180` the results satisfy `p0 ≤ u1 ≤ u2 ≤ p180`, and with `p0 ≥ p180`
they satisfy `p180 ≤ u2 ≤ u1 ≤ p0`. -/
theorem C19_monotone (s : State)
    (h0 : IsInt16 s.sMicrosecondsForServo0Degree)
    (h180 : IsInt16 s.sMicrosecondsForServo180Degree)
    (d1 d2 : Int) (hd0 : 0 ≤ d1) (hd12 : d1 ≤ d2) (hd : d2 ≤ 180) :
    ∃ u1 u2, DegreeToMicrosecondsLightweightServo s d1 = some u1 ∧
      DegreeToMicrosecondsLightweightServo s d2 = some u2 ∧
      (s.sMicrosecondsForServo0Degree ≤ s.sMicrosecondsForServo180Degree →
        s.sMicrosecondsForServo0Degree ≤ u1 ∧ u1 ≤ u2 ∧
          u2 ≤ s.sMicrosecondsForServo180Degree) ∧
      (s.sMicrosecondsForServo180Degree ≤ s.sMicrosecondsForServo0Degree →
        s.sMicrosecondsForServo180Degree ≤ u2 ∧ u2 ≤ u1 ∧
          u1 ≤ s.sMicrosecondsForServo0Degree) := by
  refine ⟨_, _, DegreeToMicroseconds_of_range s h0 h180 d1 hd0 (by omega),
    DegreeToMicroseconds_of_range s h0 h180 d2 (by omega) hd, ?_, ?_⟩
  · intro hle
    have hD : 0 ≤ s.sMicrosecondsForServo180Degree - s.sMicrosecondsForServo0Degree := by
      omega
    have b1 := (tdiv180_bounds d1 _ hd0 (by omega)).1 hD
    have b2 := (tdiv180_bounds d2 _ (by omega) hd).1 hD
    have hP1 := Int.mul_nonneg hd0 hD
    have hP2 := Int.mul_nonneg (show 0 ≤ d2 by omega) hD
    have hmono := Int.mul_le_mul_of_nonneg_right hd12 hD
    have hq : (d1 * (s.sMicrosecondsForServo180Degree
          - s.sMicrosecondsForServo0Degree)).tdiv 180
        ≤ (d2 * (s.sMicrosecondsForServo180Degree
          - s.sMicrosecondsForServo0Degree)).tdiv 180 := by
      rw [Int.tdiv_eq_ediv hP1 (by decide), Int.tdiv_eq_ediv hP2 (by decide)]
      exact Int.ediv_le_ediv (by decide) hmono
    refine ⟨?_, ?_, ?_⟩ <;> omega
  · intro hle
    have hD : s.sMicrosecondsForServo180Degree - s.sMicrosecondsForServo0Degree ≤ 0 := by
      omega
    have b1 := (tdiv180_bounds d1 _ hd0 (by omega)).2 hD
    have b2 := (tdiv180_bounds d2 _ (by omega) hd).2 hD
    have hP1 := Int.mul_nonpos_of_nonneg_of_nonpos hd0 hD
    have hP2 := Int.mul_nonpos_of_nonneg_of_nonpos (show 0 ≤ d2 by omega) hD
    have hmono := Int.mul_le_mul_of_nonpos_right hd12 hD
    have hq : (d2 * (s.sMicrosecondsForServo180Degree
          - s.sMicrosecondsForServo0Degree)).tdiv 180
        ≤ (d1 * (s.sMicrosecondsForServo180Degree
          - s.sMicrosecondsForServo0Degree)).tdiv 180 := by
      rw [tdiv_pos_eq _ 180 (by decide), tdiv_pos_eq _ 180 (by decide)]
      split <;> split <;> omega
    refine ⟨?_, ?_, ?_⟩ <;> omega

/-- Witness for C19 on the reset state at 45 and 135 degrees: 1008 and 1936
microseconds. -/
theorem C19_monotone_witness :
    ∃ u1 u2, DegreeToMicrosecondsLightweightServo resetState 45 = some u1 ∧
      DegreeToMicrosecondsLightweightServo resetState 135 = some u2 ∧
      (resetState.sMicrosecondsForServo0Degree ≤ resetState.sMicrosecondsForServo180Degree →
        resetState.sMicrosecondsForServo0Degree ≤ u1 ∧ u1 ≤ u2 ∧
          u2 ≤ resetState.sMicrosecondsForServo180Degree) ∧
      (resetState.sMicrosecondsForServo180Degree ≤ resetState.sMicrosecondsForServo0Degree →
        resetState.sMicrosecondsForServo180Degree ≤ u2 ∧ u2 ≤ u1 ∧
          u1 ≤ resetState.sMicrosecondsForServo0Degree) :=
  C19_monotone resetState (by decide) (by decide) 45 135 (by decide) (by decide) (by decide)

/-! ## The two configuration routines agree -/

/-- C20: `initLightweightServoPin9_10(true, true)` produces exactly the state that
`initLightweightServoPin9And10()` produces, from every state. -/
theorem C20_init_both_agree (s : State) :
    initLightweightServoPin9_10 true true s = initLightweightServoPin9And10 s := by
  have hy := or_pins_fin ⟨s.DDRB % 256, Nat.mod_lt _ (by decide)⟩
  simp only [] at hy
  have hm : _BV COM1A1 ||| _BV COM1B1 = 160 := by decide
  apply State.eq_of_fields
  · rw [init_DDRB_gen, initBoth_DDRB]
    simp only [if_true]
    exact hy.2.2.2.1
  · rw [init_TCCR1A, hm]
    show _ = _BV COM1A1 ||| _BV COM1B1 ||| _BV WGM11
    rcases land_160_cases s.TCCR1A with h | h | h | h <;> rw [h] <;> decide
  · rw [init_TCCR1B]
    rfl
  · rw [init_ICR1]
    rfl
  all_goals rfl

end LightweightServo
